import Mathlib

/-!
Shallow embedding of the request-orchestration core of `lama_cleaner/server.py`:
the `/inpaint` handler (`process`), the `/run_plugin` handler (`run_plugin`),
the `/save_image` handler (`save_image`) and the `POST /model` handler
(`switch_model`), together with the format sniffer `get_image_ext`.

Pixel buffers are modelled as a free term algebra over the opaque image
primitives the handlers invoke (`cv2.threshold`, `cv2.resize`, `cv2.cvtColor`,
`np.concatenate` with a new alpha axis, PIL `convert("RGBA")`); only the shape
information that the handlers actually branch on is interpreted.  External
collaborators (the model manager, plugins, the random generator, the
filesystem, `imghdr.what`) are passed in as oracle arguments.  Side effects
that the claims talk about (backend invocation, `torch_gc`,
`torch.cuda.empty_cache`, file writes, socket events, resize calls with their
limits) are recorded in an event list returned next to the HTTP response.
-/

set_option autoImplicit false

namespace LamaCleaner

/-- Pixel buffers as a free algebra over the opaque image primitives used by
`server.py`.  `prim h w c tag` is a decoded source buffer of shape
`(h, w, c)` with an abstract content tag; the other constructors mirror the
library calls the handlers perform. -/
inductive Buf where
  /-- a decoded buffer of shape `(h, w, c)` with abstract contents `tag` -/
  | prim (h w c : Nat) (tag : Nat)
  /-- `cv2.threshold(b, 127, 255, cv2.THRESH_BINARY)[1]` -/
  | threshold (b : Buf)
  /-- `cv2.resize(b, dsize=(w, h))` (OpenCV `dsize` is `(width, height)`) -/
  | resize (b : Buf) (w h : Nat)
  /-- proportional downscale so the longer side becomes `limit` -/
  | scaleToLimit (b : Buf) (limit : Nat)
  /-- `cv2.cvtColor(b.astype(np.uint8), cv2.COLOR_BGR2RGB)` -/
  | cvtBGR2RGB (b : Buf)
  /-- `np.concatenate((b, a[:, :, np.newaxis]), axis=-1)` -/
  | concatAlpha (b : Buf) (a : Buf)
  /-- `Image.fromarray(b).convert("RGBA")` -/
  | convertRGBA (b : Buf)
  deriving DecidableEq, Repr

/-- Spatial shape `(height, width)` of a buffer, i.e. numpy `shape[:2]`. -/
def Buf.shape2 : Buf → Nat × Nat
  | .prim h w _ _ => (h, w)
  | .threshold b => b.shape2
  | .resize _ w h => (h, w)
  | .scaleToLimit b limit =>
      let s := b.shape2
      if s.2 ≤ s.1 then (limit, s.2 * limit / s.1) else (s.1 * limit / s.2, limit)
  | .cvtBGR2RGB b => b.shape2
  | .concatAlpha b _ => b.shape2
  | .convertRGBA b => b.shape2

def Buf.height (b : Buf) : Nat := b.shape2.1

def Buf.width (b : Buf) : Nat := b.shape2.2

/-- Channel count (third component of the numpy shape). -/
def Buf.channels : Buf → Nat
  | .prim _ _ c _ => c
  | .threshold b => b.channels
  | .resize b _ _ => b.channels
  | .scaleToLimit b _ => b.channels
  | .cvtBGR2RGB b => b.channels
  | .concatAlpha b _ => b.channels + 1
  | .convertRGBA _ => 4

/-- Python `max(image.shape)` for a 3-dimensional buffer of shape
`(h, w, c)`: the maximum over all three components, channels included. -/
def Buf.shapeMax (b : Buf) : Nat := max b.height (max b.width b.channels)

/-- Does `needle` occur at the head of `haystack`? -/
def startsWithChars : List Char → List Char → Bool
  | [], _ => true
  | _ :: _, [] => false
  | a :: as, b :: bs => a == b && startsWithChars as bs

/-- Does `needle` occur contiguously anywhere in `haystack`? -/
def containsChars (needle : List Char) : List Char → Bool
  | [] => startsWithChars needle []
  | c :: cs => startsWithChars needle (c :: cs) || containsChars needle cs

/-- Python `needle in haystack` for strings: contiguous substring test. -/
def strContains (haystack needle : String) : Bool :=
  containsChars needle.toList haystack.toList

/-- `get_image_ext` (`server.py` lines 132-136): `imghdr.what` sniffs the
uploaded bytes; its result is passed in as `sniff` (`none` when sniffing is
inconclusive), and the fallback is `"jpeg"`. -/
def get_image_ext (sniff : Option String) : String :=
  match sniff with
  | none => "jpeg"
  | some w => w

/-- Response bodies: plain text, an image encoded through
`pil_to_bytes(Image.fromarray(b), ext, quality=quality, infos=infos)`, or an
image encoded through `numpy_to_bytes(b, ext)`. -/
inductive RespBody where
  | text (s : String)
  | imagePil (b : Buf) (ext : String) (quality : Nat) (infos : Nat)
  | imageNp (b : Buf) (ext : String)
  deriving DecidableEq, Repr

/-- An HTTP response as Flask assembles it: status code, body, extra headers
and the `send_file` mimetype when one is set. -/
structure HttpResponse where
  status : Nat
  body : RespBody
  headers : List (String × String) := []
  mimetype : Option String := none
  deriving DecidableEq, Repr

/-- Observable side effects of a handler, in execution order. -/
inductive Event where
  /-- `global_config.model_manager(image, mask, config)` was invoked -/
  | modelCall
  /-- `global_config.plugins[name](...)` was invoked -/
  | pluginCall (name : String)
  /-- `torch_gc()` ran -/
  | torchGc
  /-- `torch.cuda.empty_cache()` ran -/
  | cudaEmptyCache
  /-- `global_config.model_manager.switch(name)` was invoked -/
  | switchCall (name : Option String)
  /-- `resize_max_size` was applied to the image with this size limit -/
  | resizeImage (limit : Nat)
  /-- `resize_max_size` was applied to the mask with this size limit -/
  | resizeMask (limit : Nat)
  /-- bytes `body` were persisted at `path` -/
  | saveFile (path : String) (body : RespBody)
  /-- `socketio.emit("diffusion_finish")` -/
  | emitDiffusionFinish
  deriving DecidableEq, Repr

/-- Modelled from the spec: `resize_max_size` lives in `lama_cleaner.helper`,
which is not part of the sources under study.  Section 4.2 of the spec says:
if `max(height, width) ≤ limit` the buffer is returned unchanged, otherwise it
is scaled proportionally so that the longer side equals `limit`. -/
def resize_max_size (b : Buf) (limit : Nat) : Buf :=
  if max b.height b.width ≤ limit then b else Buf.scaleToLimit b limit

/-- Modelled from the spec: the Alpha/Format Compositor routine of section
4.5.  If alpha is present and its spatial dimensions differ from the output
buffer, alpha is resized to match before channel concatenation; no-op when
alpha is absent. -/
def compose (output : Buf) (alpha : Option Buf) : Buf :=
  match alpha with
  | none => output
  | some a =>
      Buf.concatAlpha output
        (if a.shape2 ≠ output.shape2 then Buf.resize a output.width output.height else a)

/-- Seed defaulting in the `/inpaint` handler (`server.py` lines 299-300):
`if config.sd_seed == -1: config.sd_seed = random.randint(1, 99999999)`.
`rnd` is the value the random generator would produce. -/
def resolveSeed (sdSeed rnd : Int) : Int :=
  if sdSeed = -1 then rnd else sdSeed

/-- The `/inpaint` request after decoding: `image`, optional `alpha_channel`
and `exif_infos` come from `load_img(origin_image_bytes, return_info=True)`;
`mask0` is `load_img(mask_bytes, gray=True)` before thresholding; `sdSeed` is
the parsed `sdSeed` form field; `sniffExt` is the result of sniffing the
original upload's bytes with `imghdr.what`. -/
structure InpaintRequest where
  image : Buf
  alpha : Option Buf
  infos : Nat
  mask0 : Buf
  sdSeed : Int
  sniffExt : Option String
  deriving Repr

/-- The `/inpaint` handler `process` (`server.py` lines 228-354).  Oracles:
`rnd` is what `random.randint(1, 99999999)` would return, `mm` the outcome of
the `global_config.model_manager(image, mask, config)` call (`.error e` for a
`RuntimeError` whose `str` is `e`), `isMac` the value of `is_mac()`, `quality`
the configured `global_config.image_quality`. -/
def process (req : InpaintRequest) (rnd : Int) (mm : Except String Buf)
    (isMac : Bool) (quality : Nat) : HttpResponse × List Event :=
  let mask := Buf.threshold req.mask0
  if req.image.shape2 ≠ mask.shape2 then
    ({ status := 400,
       body := .text ("Mask shape" ++ toString mask.shape2
         ++ " not queal to Image shape" ++ toString req.image.shape2) }, [])
  else
    let size_limit := req.image.shapeMax
    let seed := resolveSeed req.sdSeed rnd
    let _image := resize_max_size req.image size_limit
    let _mask := resize_max_size mask size_limit
    let preEvents :=
      [Event.resizeImage size_limit, Event.resizeMask size_limit, Event.modelCall]
    match mm with
    | .error e =>
        let body :=
          if strContains e "CUDA out of memory. " then "CUDA out of memory"
          else if strContains e "Invalid buffer size" && isMac then "Out of memory"
          else e
        ({ status := 500, body := .text body }, preEvents ++ [Event.torchGc])
    | .ok res0 =>
        let res1 := Buf.cvtBGR2RGB res0
        let res2 :=
          match req.alpha with
          | none => res1
          | some a =>
              Buf.concatAlpha res1
                (if a.shape2 ≠ res1.shape2 then Buf.resize a res1.width res1.height else a)
        let ext := get_image_ext req.sniffExt
        ({ status := 200,
           body := .imagePil res2 ext quality req.infos,
           headers := [("X-Seed", toString seed)],
           mimetype := some ("image/" ++ ext) },
         preEvents ++ [Event.torchGc, Event.emitDiffusionFinish])

/-- Modelled from the spec: the interactive-segmentation plugin's name
(`InteractiveSeg.name` from `lama_cleaner.plugins`, outside the sources under
study). -/
def InteractiveSegName : String := "InteractiveSeg"

/-- Modelled from the spec: the background-removal plugin's name
(`RemoveBG.name` from `lama_cleaner.plugins`). -/
def RemoveBGName : String := "RemoveBG"

/-- Modelled from the spec: the anime-segmentation plugin's name
(`AnimeSeg.name` from `lama_cleaner.plugins`). -/
def AnimeSegName : String := "AnimeSeg"

/-- The `/run_plugin` request after decoding: plugin `name`, decoded
`rgb_np_img` with optional alpha channel and metadata, and the sniff result
on the original upload's bytes. -/
structure PluginRequest where
  name : String
  image : Buf
  alpha : Option Buf
  infos : Nat
  sniffExt : Option String
  deriving Repr

/-- The `/run_plugin` handler (`server.py` lines 357-425).  `plugins` is the
list of registered plugin names (`global_config.plugins` keys);
`pluginResult` is the outcome of `global_config.plugins[name](rgb_np_img,
files, form)` (`.error e` for a `RuntimeError` whose `str` is `e`);
`quality` is `global_config.image_quality`. -/
def run_plugin (req : PluginRequest) (plugins : List String)
    (pluginResult : Except String Buf) (quality : Nat) :
    HttpResponse × List Event :=
  if req.name ∉ plugins then
    ({ status := 500, body := .text "Plugin not found" }, [])
  else
    match pluginResult with
    | .error e =>
        if strContains e "CUDA out of memory. " then
          ({ status := 500, body := .text "CUDA out of memory" },
           [Event.pluginCall req.name, Event.cudaEmptyCache])
        else
          ({ status := 500, body := .text "Internal Server Error" },
           [Event.pluginCall req.name, Event.cudaEmptyCache])
    | .ok bgr_res =>
        if req.name = InteractiveSegName then
          ({ status := 200, body := .imageNp bgr_res "png",
             mimetype := some "image/png" },
           [Event.pluginCall req.name, Event.torchGc])
        else if req.name = RemoveBGName ∨ req.name = AnimeSegName then
          ({ status := 200, body := .imagePil bgr_res "png" quality req.infos,
             mimetype := some "image/png" },
           [Event.pluginCall req.name, Event.torchGc])
        else
          let rgb_res := Buf.cvtBGR2RGB bgr_res
          let rgb_res2 :=
            match req.alpha with
            | none => rgb_res
            | some a =>
                Buf.concatAlpha rgb_res
                  (if a.shape2 ≠ rgb_res.shape2 then
                     Buf.resize a rgb_res.width rgb_res.height
                   else a)
          let ext := get_image_ext req.sniffExt
          ({ status := 200, body := .imagePil rgb_res2 ext quality req.infos,
             mimetype := some ("image/" ++ ext) },
           [Event.pluginCall req.name, Event.torchGc])

/-- Helper for `withSuffixPng`: the input is the reversed character list of a
path; returns the reversed characters before the suffix dot when the final
path component has a non-empty stem and a suffix, `none` otherwise (mirroring
`pathlib.PurePath.with_suffix`, which treats a leading dot as part of the
stem). -/
def dropSuffixRev : List Char → Option (List Char)
  | [] => none
  | '.' :: rest =>
      if rest = [] ∨ rest.head? = some '/' then none else some rest
  | '/' :: _ => none
  | _ :: rest => dropSuffixRev rest

/-- `Path(p).with_suffix(".png")`: replace the suffix of the last path
component by `.png`, or append `.png` when it has none. -/
def withSuffixPng (p : String) : String :=
  (match dropSuffixRev p.toList.reverse with
   | some stemRev => String.mk stemRev.reverse
   | none => p) ++ ".png"

/-- The `/save_image` request after decoding: the caller-supplied `filename`
form field, the decoded image with optional alpha channel and metadata, and
the sniff result on the uploaded bytes (which the handler never consults:
the `get_image_ext` call is commented out in the source). -/
structure SaveRequest where
  filename : String
  image : Buf
  alpha : Option Buf
  infos : Nat
  sniffExt : Option String
  deriving Repr

/-- The `/save_image` handler (`server.py` lines 143-177).  `outputDir` is
`global_config.output_dir` rendered as a path string, `quality` is
`global_config.image_quality`, and `writeOk` tells whether opening and
writing the destination file succeeds. -/
def save_image (req : SaveRequest) (outputDir : Option String)
    (quality : Nat) (writeOk : Bool) : HttpResponse × List Event :=
  match outputDir with
  | none => ({ status := 500, body := .text "--output-dir is None" }, [])
  | some dir =>
      let ext := "png"
      let save_path := withSuffixPng (dir ++ "/" ++ req.filename)
      let image :=
        match req.alpha with
        | none => req.image
        | some a =>
            Buf.concatAlpha req.image
              (if a.shape2 ≠ req.image.shape2 then
                 Buf.resize a req.image.width req.image.height
               else a)
      let pil_image := Buf.convertRGBA image
      let img_bytes := RespBody.imagePil pil_image ext quality req.infos
      if writeOk then
        ({ status := 200, body := .text "ok" }, [Event.saveFile save_path img_bytes])
      else
        ({ status := 500, body := .text "Save image failed" }, [])

/-- A Python exception as the `POST /model` handler renders it:
`type(e).__name__` and `str(e)`. -/
structure PyExc where
  typeName : String
  msg : String
  deriving DecidableEq, Repr

/-- Python `str` of an optional string form field (`str(None) = "None"`). -/
def optStr : Option String → String
  | none => "None"
  | some s => s

/-- The `POST /model` handler `switch_model` (`server.py` lines 454-470).
`disableModelSwitch` is `global_config.disable_model_switch`, `currentName`
is `global_config.model_manager.name`, `newName` is `request.form.get("name")`
(`none` when absent), and `outcome` is the result of
`global_config.model_manager.switch(new_name)`. -/
def switch_model (disableModelSwitch : Bool) (currentName : String)
    (newName : Option String) (outcome : Except PyExc Unit) :
    HttpResponse × List Event :=
  if disableModelSwitch then
    ({ status := 400, body := .text "Switch model is disabled" }, [])
  else if newName = some currentName then
    ({ status := 200, body := .text "Same model" }, [])
  else
    match outcome with
    | .error e =>
        ({ status := 500,
           body := .text ("Switch model failed: " ++ e.typeName ++ " - " ++ e.msg) },
         [Event.switchCall newName])
    | .ok _ =>
        ({ status := 200, body := .text ("ok, switch to " ++ optStr newName) },
         [Event.switchCall newName])

/-- The container format a response body was encoded with (`none` for plain
text bodies). -/
def RespBody.encExt : RespBody → Option String
  | .text _ => none
  | .imagePil _ ext _ _ => some ext
  | .imageNp _ ext => some ext

theorem shape2_threshold (b : Buf) : (Buf.threshold b).shape2 = b.shape2 := rfl

theorem get_image_ext_eq_getD (sniff : Option String) :
    get_image_ext sniff = sniff.getD "jpeg" := by
  cases sniff <;> rfl

/-- Characterization of `process` on a shape-mismatched request: the 400
branch is taken and no side effect is recorded. -/
theorem process_mismatch_eq (req : InpaintRequest) (rnd : Int)
    (mm : Except String Buf) (isMac : Bool) (quality : Nat)
    (hne : req.image.shape2 ≠ req.mask0.shape2) :
    process req rnd mm isMac quality =
      ({ status := 400,
         body := .text ("Mask shape" ++ toString req.mask0.shape2
           ++ " not queal to Image shape" ++ toString req.image.shape2) }, []) := by
  have hcond : req.image.shape2 ≠ (Buf.threshold req.mask0).shape2 := by
    simpa [shape2_threshold] using hne
  simp only [process]
  rw [if_pos hcond]
  rfl

/-- Characterization of `process` on a matching request whose model call
succeeds. -/
theorem process_ok_eq (req : InpaintRequest) (rnd : Int) (buf : Buf)
    (isMac : Bool) (quality : Nat)
    (hshape : req.image.shape2 = req.mask0.shape2) :
    process req rnd (.ok buf) isMac quality =
      ({ status := 200,
         body := .imagePil (compose (Buf.cvtBGR2RGB buf) req.alpha)
                   (get_image_ext req.sniffExt) quality req.infos,
         headers := [("X-Seed", toString (resolveSeed req.sdSeed rnd))],
         mimetype := some ("image/" ++ get_image_ext req.sniffExt) },
       [Event.resizeImage req.image.shapeMax, Event.resizeMask req.image.shapeMax,
        Event.modelCall, Event.torchGc, Event.emitDiffusionFinish]) := by
  have hcond : ¬ req.image.shape2 ≠ (Buf.threshold req.mask0).shape2 := by
    simp [shape2_threshold, hshape]
  simp only [process]
  rw [if_neg hcond]
  cases req.alpha <;> rfl

/-- Characterization of `process` on a matching request whose model call
raises a `RuntimeError` with text `e`. -/
theorem process_err_eq (req : InpaintRequest) (rnd : Int) (e : String)
    (isMac : Bool) (quality : Nat)
    (hshape : req.image.shape2 = req.mask0.shape2) :
    process req rnd (.error e) isMac quality =
      ({ status := 500,
         body := .text
           (if strContains e "CUDA out of memory. " then "CUDA out of memory"
            else if strContains e "Invalid buffer size" && isMac then "Out of memory"
            else e) },
       [Event.resizeImage req.image.shapeMax, Event.resizeMask req.image.shapeMax,
        Event.modelCall, Event.torchGc]) := by
  have hcond : ¬ req.image.shape2 ≠ (Buf.threshold req.mask0).shape2 := by
    simp [shape2_threshold, hshape]
  simp only [process]
  rw [if_neg hcond]
  rfl

/-- Characterization of `run_plugin` for a registered plugin outside the
three special-cased segmentation-family plugins, when the plugin call
succeeds. -/
theorem run_plugin_generic_ok_eq (req : PluginRequest) (plugins : List String)
    (bgr_res : Buf) (quality : Nat)
    (hname : req.name ∈ plugins)
    (h1 : req.name ≠ InteractiveSegName) (h2 : req.name ≠ RemoveBGName)
    (h3 : req.name ≠ AnimeSegName) :
    run_plugin req plugins (.ok bgr_res) quality =
      ({ status := 200,
         body := .imagePil (compose (Buf.cvtBGR2RGB bgr_res) req.alpha)
                   (get_image_ext req.sniffExt) quality req.infos,
         mimetype := some ("image/" ++ get_image_ext req.sniffExt) },
       [Event.pluginCall req.name, Event.torchGc]) := by
  have hcond : ¬ req.name ∉ plugins := by simpa using hname
  simp only [run_plugin]
  rw [if_neg hcond, if_neg h1, if_neg (by simp [h2, h3])]
  cases req.alpha <;> rfl

/-- Characterization of `run_plugin` for a registered plugin whose call
raises a `RuntimeError` with text `e`. -/
theorem run_plugin_err_eq (req : PluginRequest) (plugins : List String)
    (e : String) (quality : Nat) (hname : req.name ∈ plugins) :
    run_plugin req plugins (.error e) quality =
      ({ status := 500,
         body := .text
           (if strContains e "CUDA out of memory. " then "CUDA out of memory"
            else "Internal Server Error") },
       [Event.pluginCall req.name, Event.cudaEmptyCache]) := by
  have hcond : ¬ req.name ∉ plugins := by simpa using hname
  simp only [run_plugin]
  rw [if_neg hcond]
  by_cases hc : strContains e "CUDA out of memory. " <;> simp [hc]

/-- Characterization of `save_image` with an output directory configured and
a successful file write. -/
theorem save_image_some_eq (req : SaveRequest) (dir : String) (quality : Nat) :
    save_image req (some dir) quality true =
      ({ status := 200, body := .text "ok" },
       [Event.saveFile (withSuffixPng (dir ++ "/" ++ req.filename))
          (.imagePil (Buf.convertRGBA (compose req.image req.alpha))
            "png" quality req.infos)]) := by
  simp only [save_image]
  cases req.alpha <;> rfl

/-- C1: on a successful `/inpaint` request the response carries an `X-Seed`
header holding the resolved seed; the parsed `sdSeed` is replaced by the
random draw (which `random.randint(1, 99999999)` guarantees lies in
`[1, 99999999]`) exactly when it equals the sentinel `-1`, and is kept
exactly for any other value. -/
theorem inpaint_seed_resolution (req : InpaintRequest) (rnd : Int) (buf : Buf)
    (isMac : Bool) (quality : Nat)
    (hrnd : 1 ≤ rnd ∧ rnd ≤ 99999999)
    (hshape : req.image.shape2 = req.mask0.shape2) :
    (process req rnd (.ok buf) isMac quality).1.status = 200 ∧
    (process req rnd (.ok buf) isMac quality).1.headers
      = [("X-Seed", toString (resolveSeed req.sdSeed rnd))] ∧
    (req.sdSeed = -1 →
      1 ≤ resolveSeed req.sdSeed rnd ∧ resolveSeed req.sdSeed rnd ≤ 99999999) ∧
    (req.sdSeed ≠ -1 → resolveSeed req.sdSeed rnd = req.sdSeed) := by
  rw [process_ok_eq req rnd buf isMac quality hshape]
  refine ⟨rfl, rfl, ?_, ?_⟩
  · intro h
    simp only [resolveSeed, if_pos h]
    exact hrnd
  · intro h
    simp only [resolveSeed, if_neg h]

theorem inpaint_seed_resolution_witness :
    (process ⟨Buf.prim 4 4 3 0, none, 0, Buf.prim 4 4 1 1, 42, none⟩ 7
        (.ok (Buf.prim 4 4 3 2)) false 95).1.status = 200 ∧
    (process ⟨Buf.prim 4 4 3 0, none, 0, Buf.prim 4 4 1 1, 42, none⟩ 7
        (.ok (Buf.prim 4 4 3 2)) false 95).1.headers
      = [("X-Seed", toString (resolveSeed 42 7))] := by
  have h := inpaint_seed_resolution ⟨Buf.prim 4 4 3 0, none, 0, Buf.prim 4 4 1 1, 42, none⟩
    7 (Buf.prim 4 4 3 2) false 95 (by decide) (by decide)
  exact ⟨h.1, h.2.1⟩

/-- C2: an `/inpaint` request whose decoded image and decoded mask have
different spatial dimensions is answered with HTTP 400 and the model manager
is never invoked. -/
theorem inpaint_shape_mismatch_rejects (req : InpaintRequest) (rnd : Int)
    (mm : Except String Buf) (isMac : Bool) (quality : Nat)
    (hne : req.image.shape2 ≠ req.mask0.shape2) :
    (process req rnd mm isMac quality).1.status = 400 ∧
    (process req rnd mm isMac quality).1.body
      = .text ("Mask shape" ++ toString req.mask0.shape2
          ++ " not queal to Image shape" ++ toString req.image.shape2) ∧
    Event.modelCall ∉ (process req rnd mm isMac quality).2 := by
  rw [process_mismatch_eq req rnd mm isMac quality hne]
  exact ⟨rfl, rfl, by simp⟩

theorem inpaint_shape_mismatch_rejects_witness :
    (process ⟨Buf.prim 4 4 3 0, none, 0, Buf.prim 5 4 1 1, 42, none⟩ 7
        (.ok (Buf.prim 4 4 3 2)) false 95).1.status = 400 ∧
    Event.modelCall ∉ (process ⟨Buf.prim 4 4 3 0, none, 0, Buf.prim 5 4 1 1, 42, none⟩ 7
        (.ok (Buf.prim 4 4 3 2)) false 95).2 := by
  have h := inpaint_shape_mismatch_rejects ⟨Buf.prim 4 4 3 0, none, 0, Buf.prim 5 4 1 1, 42, none⟩
    7 (.ok (Buf.prim 4 4 3 2)) false 95 (by decide)
  exact ⟨h.1, h.2.2⟩

/-- C3: when the model-manager call on `/inpaint` raises (a `RuntimeError`
with text `e`, the failure mode of the backend contract), the response status
is 500 and the body distinguishes resource exhaustion from generic failure:
it is the fixed message `"CUDA out of memory"` when `e` contains
`"CUDA out of memory. "`, the fixed message `"Out of memory"` when `e`
contains `"Invalid buffer size"` on a mac, and the exception text `e`
otherwise. -/
theorem inpaint_backend_error_classified (req : InpaintRequest) (rnd : Int)
    (e : String) (isMac : Bool) (quality : Nat)
    (hshape : req.image.shape2 = req.mask0.shape2) :
    (process req rnd (.error e) isMac quality).1.status = 500 ∧
    (strContains e "CUDA out of memory. " = true →
      (process req rnd (.error e) isMac quality).1.body = .text "CUDA out of memory") ∧
    (strContains e "CUDA out of memory. " = false →
      strContains e "Invalid buffer size" = true → isMac = true →
      (process req rnd (.error e) isMac quality).1.body = .text "Out of memory") ∧
    (strContains e "CUDA out of memory. " = false →
      (strContains e "Invalid buffer size" = false ∨ isMac = false) →
      (process req rnd (.error e) isMac quality).1.body = .text e) := by
  rw [process_err_eq req rnd e isMac quality hshape]
  refine ⟨rfl, ?_, ?_, ?_⟩
  · intro h1
    simp [h1]
  · intro h1 h2 h3
    simp [h1, h2, h3]
  · intro h1 h2
    rcases h2 with h2 | h2 <;> simp [h1, h2]

theorem inpaint_backend_error_classified_witness :
    (process ⟨Buf.prim 4 4 3 0, none, 0, Buf.prim 4 4 1 1, 42, none⟩ 7
        (.error "CUDA out of memory. Tried to allocate") false 95).1.status = 500 :=
  (inpaint_backend_error_classified ⟨Buf.prim 4 4 3 0, none, 0, Buf.prim 4 4 1 1, 42, none⟩
    7 "CUDA out of memory. Tried to allocate" false 95 (by decide)).1

/-- C4 counterexample: a `/run_plugin` inference attempt that raises a
`RuntimeError` returns from inside the `except` block, so `torch_gc` is NOT
executed (only `torch.cuda.empty_cache` is), refuting the claim that the
memory-reclamation hook runs after every inference attempt on either
endpoint. -/
theorem run_plugin_gc_skipped_cex :
    (run_plugin ⟨"RealESRGAN", Buf.prim 4 4 3 0, none, 0, none⟩
        ["RealESRGAN"] (.error "boom") 95).1.status = 500 ∧
    Event.torchGc ∉ (run_plugin ⟨"RealESRGAN", Buf.prim 4 4 3 0, none, 0, none⟩
        ["RealESRGAN"] (.error "boom") 95).2 ∧
    Event.cudaEmptyCache ∈ (run_plugin ⟨"RealESRGAN", Buf.prim 4 4 3 0, none, 0, none⟩
        ["RealESRGAN"] (.error "boom") 95).2 := by decide

/-- C4 amended: on `/inpaint` the `finally` block runs `torch_gc` after the
model call regardless of outcome; on `/run_plugin`, `torch_gc` runs only
after a successful plugin call, while a `RuntimeError` triggers
`torch.cuda.empty_cache` instead and `torch_gc` is skipped. -/
theorem gc_after_inference_amended (req : InpaintRequest) (rnd : Int)
    (mm : Except String Buf) (isMac : Bool) (quality : Nat)
    (preq : PluginRequest) (plugins : List String) (pres : Except String Buf)
    (pquality : Nat)
    (hshape : req.image.shape2 = req.mask0.shape2)
    (hname : preq.name ∈ plugins) :
    Event.torchGc ∈ (process req rnd mm isMac quality).2 ∧
    (∀ b : Buf, pres = .ok b →
      Event.torchGc ∈ (run_plugin preq plugins pres pquality).2) ∧
    (∀ e : String, pres = .error e →
      Event.cudaEmptyCache ∈ (run_plugin preq plugins pres pquality).2 ∧
      Event.torchGc ∉ (run_plugin preq plugins pres pquality).2) := by
  have hcond : ¬ preq.name ∉ plugins := by simpa using hname
  refine ⟨?_, ?_, ?_⟩
  · cases mm with
    | error e =>
        rw [process_err_eq req rnd e isMac quality hshape]
        simp
    | ok b =>
        rw [process_ok_eq req rnd b isMac quality hshape]
        simp
  · rintro b rfl
    simp only [run_plugin]
    rw [if_neg hcond]
    by_cases h1 : preq.name = InteractiveSegName
    · simp [h1]
    · by_cases h2 : preq.name = RemoveBGName ∨ preq.name = AnimeSegName
      · simp [h1, h2]
      · simp only [if_neg h1, if_neg h2]
        cases preq.alpha <;> simp
  · rintro e rfl
    rw [run_plugin_err_eq preq plugins e pquality hname]
    simp

theorem gc_after_inference_amended_witness :
    Event.torchGc ∈ (process ⟨Buf.prim 4 4 3 0, none, 0, Buf.prim 4 4 1 1, 42, none⟩ 7
        (.error "boom") false 95).2 :=
  (gc_after_inference_amended ⟨Buf.prim 4 4 3 0, none, 0, Buf.prim 4 4 1 1, 42, none⟩ 7
    (.error "boom") false 95 ⟨"RealESRGAN", Buf.prim 4 4 3 0, none, 0, none⟩
    ["RealESRGAN"] (.ok (Buf.prim 4 4 3 9)) 95 (by decide) (by decide)).1

/-- C5 counterexample: on the `/run_plugin` success path for the
segmentation-family plugin `RemoveBG`, an uploaded alpha channel whose
spatial dimensions differ from the result's is NOT resized and concatenated
— the response body carries the plugin result unchanged, which differs from
what the shared alpha-recombination routine would produce. -/
theorem plugin_alpha_skip_cex :
    (run_plugin ⟨"RemoveBG", Buf.prim 4 4 3 0, some (Buf.prim 8 8 1 1), 0, none⟩
        ["RemoveBG"] (.ok (Buf.prim 4 4 3 2)) 95).1.status = 200 ∧
    (run_plugin ⟨"RemoveBG", Buf.prim 4 4 3 0, some (Buf.prim 8 8 1 1), 0, none⟩
        ["RemoveBG"] (.ok (Buf.prim 4 4 3 2)) 95).1.body
      = .imagePil (Buf.prim 4 4 3 2) "png" 95 0 ∧
    Buf.prim 4 4 3 2 ≠ compose (Buf.prim 4 4 3 2) (some (Buf.prim 8 8 1 1)) := by
  decide

/-- C5 amended: the alpha-recombination routine (resize the alpha channel to
the result's dimensions when they differ, then concatenate it as a fourth
channel; no-op without alpha) is one and the same on the `/inpaint` success
path, the `/save_image` path, and the `/run_plugin` success path for plugins
outside the segmentation family — while `InteractiveSeg`, `RemoveBG` and
`AnimeSeg` skip it entirely. -/
theorem alpha_compose_unified (req : InpaintRequest) (rnd : Int) (buf : Buf)
    (isMac : Bool) (quality : Nat)
    (preq : PluginRequest) (plugins : List String) (pbuf : Buf) (pquality : Nat)
    (sreq : SaveRequest) (dir : String) (squality : Nat)
    (hshape : req.image.shape2 = req.mask0.shape2)
    (hname : preq.name ∈ plugins)
    (hgen : preq.name ≠ InteractiveSegName ∧ preq.name ≠ RemoveBGName ∧
      preq.name ≠ AnimeSegName) :
    (process req rnd (.ok buf) isMac quality).1.body
      = .imagePil (compose (Buf.cvtBGR2RGB buf) req.alpha)
          (get_image_ext req.sniffExt) quality req.infos ∧
    (run_plugin preq plugins (.ok pbuf) pquality).1.body
      = .imagePil (compose (Buf.cvtBGR2RGB pbuf) preq.alpha)
          (get_image_ext preq.sniffExt) pquality preq.infos ∧
    (save_image sreq (some dir) squality true).2
      = [Event.saveFile (withSuffixPng (dir ++ "/" ++ sreq.filename))
          (.imagePil (Buf.convertRGBA (compose sreq.image sreq.alpha))
            "png" squality sreq.infos)] := by
  refine ⟨?_, ?_, ?_⟩
  · rw [process_ok_eq req rnd buf isMac quality hshape]
  · rw [run_plugin_generic_ok_eq preq plugins pbuf pquality hname hgen.1 hgen.2.1 hgen.2.2]
  · rw [save_image_some_eq sreq dir squality]

theorem alpha_compose_unified_witness :
    (run_plugin ⟨"RealESRGAN", Buf.prim 4 4 3 0, some (Buf.prim 8 8 1 1), 0, none⟩
        ["RealESRGAN"] (.ok (Buf.prim 4 4 3 2)) 95).1.body
      = .imagePil (compose (Buf.cvtBGR2RGB (Buf.prim 4 4 3 2)) (some (Buf.prim 8 8 1 1)))
          (get_image_ext none) 95 0 :=
  (alpha_compose_unified ⟨Buf.prim 4 4 3 0, none, 0, Buf.prim 4 4 1 1, 42, none⟩ 7
    (Buf.prim 4 4 3 2) false 95
    ⟨"RealESRGAN", Buf.prim 4 4 3 0, some (Buf.prim 8 8 1 1), 0, none⟩
    ["RealESRGAN"] (Buf.prim 4 4 3 2) 95
    ⟨"a.jpg", Buf.prim 4 4 3 0, none, 0, none⟩ "out" 95
    (by decide) (by decide) (by decide)).2.1

/-- C6: the format of a successful response's image is sniffed from the
original upload's bytes with fallback `"jpeg"` (it depends on nothing else in
the request), except that the segmentation-family plugins `InteractiveSeg`,
`RemoveBG` and `AnimeSeg` always produce `"png"` output. -/
theorem response_format_from_sniff (req : InpaintRequest) (rnd : Int)
    (buf : Buf) (isMac : Bool) (quality : Nat)
    (preq : PluginRequest) (plugins : List String) (pbuf : Buf) (pquality : Nat)
    (hshape : req.image.shape2 = req.mask0.shape2)
    (hname : preq.name ∈ plugins) :
    (process req rnd (.ok buf) isMac quality).1.body.encExt
      = some (req.sniffExt.getD "jpeg") ∧
    (process req rnd (.ok buf) isMac quality).1.mimetype
      = some ("image/" ++ req.sniffExt.getD "jpeg") ∧
    (preq.name = InteractiveSegName ∨ preq.name = RemoveBGName ∨
        preq.name = AnimeSegName →
      (run_plugin preq plugins (.ok pbuf) pquality).1.body.encExt = some "png") ∧
    (preq.name ≠ InteractiveSegName → preq.name ≠ RemoveBGName →
        preq.name ≠ AnimeSegName →
      (run_plugin preq plugins (.ok pbuf) pquality).1.body.encExt
        = some (preq.sniffExt.getD "jpeg")) := by
  have hcond : ¬ preq.name ∉ plugins := by simpa using hname
  refine ⟨?_, ?_, ?_, ?_⟩
  · rw [process_ok_eq req rnd buf isMac quality hshape, ← get_image_ext_eq_getD]
    rfl
  · rw [process_ok_eq req rnd buf isMac quality hshape, ← get_image_ext_eq_getD]
  · intro h
    simp only [run_plugin]
    rw [if_neg hcond]
    rcases h with h | h | h
    · rw [if_pos h]
      rfl
    · rw [if_neg (by rw [h]; decide), if_pos (Or.inl h)]
      rfl
    · rw [if_neg (by rw [h]; decide), if_pos (Or.inr h)]
      rfl
  · intro h1 h2 h3
    rw [run_plugin_generic_ok_eq preq plugins pbuf pquality hname h1 h2 h3,
      ← get_image_ext_eq_getD]
    rfl

theorem response_format_from_sniff_witness :
    (process ⟨Buf.prim 4 4 3 0, none, 0, Buf.prim 4 4 1 1, 42, some "png"⟩ 7
        (.ok (Buf.prim 4 4 3 2)) false 95).1.mimetype = some ("image/" ++ Option.getD (some "png") "jpeg") :=
  (response_format_from_sniff ⟨Buf.prim 4 4 3 0, none, 0, Buf.prim 4 4 1 1, 42, some "png"⟩ 7
    (Buf.prim 4 4 3 2) false 95 ⟨"RemoveBG", Buf.prim 4 4 3 0, none, 0, none⟩
    ["RemoveBG"] (Buf.prim 4 4 3 9) 95 (by decide) (by decide)).2.1

/-- C7 counterexample: for a decoded 2×2 RGB image (shape `(2, 2, 3)`), the
size limit passed to `resize_max_size` is `max(image.shape) = 3`, the channel
count — not the larger spatial dimension `2` as the claim states. -/
theorem inpaint_size_limit_cex :
    Event.resizeImage 3 ∈ (process ⟨Buf.prim 2 2 3 0, none, 0, Buf.prim 2 2 1 1, 42, none⟩ 7
        (.ok (Buf.prim 2 2 3 2)) false 95).2 ∧
    Event.resizeMask 3 ∈ (process ⟨Buf.prim 2 2 3 0, none, 0, Buf.prim 2 2 1 1, 42, none⟩ 7
        (.ok (Buf.prim 2 2 3 2)) false 95).2 ∧
    Event.resizeImage 2 ∉ (process ⟨Buf.prim 2 2 3 0, none, 0, Buf.prim 2 2 1 1, 42, none⟩ 7
        (.ok (Buf.prim 2 2 3 2)) false 95).2 ∧
    (3 : Nat) ≠ max 2 2 := by decide

/-- C7 amended: on `/inpaint` one common size limit is passed to the geometry
normalizer for image and mask, namely `max(image.shape)` — the maximum over
the decoded image's full shape tuple, channels included; it equals the larger
spatial dimension exactly when the channel count does not exceed it. -/
theorem inpaint_size_limit_amended (req : InpaintRequest) (rnd : Int)
    (mm : Except String Buf) (isMac : Bool) (quality : Nat)
    (hshape : req.image.shape2 = req.mask0.shape2) :
    Event.resizeImage req.image.shapeMax ∈ (process req rnd mm isMac quality).2 ∧
    Event.resizeMask req.image.shapeMax ∈ (process req rnd mm isMac quality).2 ∧
    req.image.shapeMax
      = max (max req.image.height req.image.width) req.image.channels ∧
    (req.image.channels ≤ max req.image.height req.image.width →
      req.image.shapeMax = max req.image.height req.image.width) := by
  have hmem : ∀ ev ∈ [Event.resizeImage req.image.shapeMax,
      Event.resizeMask req.image.shapeMax],
      ev ∈ (process req rnd mm isMac quality).2 := by
    intro ev hev
    cases mm with
    | error e =>
        rw [process_err_eq req rnd e isMac quality hshape]
        simp only [List.mem_cons, List.mem_singleton] at hev ⊢
        rcases hev with h | h | h
        · exact Or.inl h
        · exact Or.inr (Or.inl h)
        · exact absurd h (by simp)
    | ok b =>
        rw [process_ok_eq req rnd b isMac quality hshape]
        simp only [List.mem_cons, List.mem_singleton] at hev ⊢
        rcases hev with h | h | h
        · exact Or.inl h
        · exact Or.inr (Or.inl h)
        · exact absurd h (by simp)
  refine ⟨hmem _ (by simp), hmem _ (by simp), ?_, ?_⟩
  · exact (max_assoc req.image.height req.image.width req.image.channels).symm
  · intro h
    have hx : Buf.shapeMax req.image
        = max (max req.image.height req.image.width) req.image.channels :=
      (max_assoc req.image.height req.image.width req.image.channels).symm
    rw [hx, max_eq_left h]

theorem inpaint_size_limit_amended_witness :
    Event.resizeImage (Buf.prim 2 2 3 0).shapeMax
      ∈ (process ⟨Buf.prim 2 2 3 0, none, 0, Buf.prim 2 2 1 1, 42, none⟩ 7
          (.ok (Buf.prim 2 2 3 2)) false 95).2 :=
  (inpaint_size_limit_amended ⟨Buf.prim 2 2 3 0, none, 0, Buf.prim 2 2 1 1, 42, none⟩ 7
    (.ok (Buf.prim 2 2 3 2)) false 95 (by decide)).1

/-- C8: `POST /model` returns 400 without invoking `switch` when switching
was disabled at startup; when the `switch` call raises, it returns 500 with a
structured message naming the exception type and description; when the
`switch` call succeeds it returns 200. -/
theorem switch_model_endpoint_spec (currentName : String)
    (newName : Option String) (outcome : Except PyExc Unit) :
    (switch_model true currentName newName outcome
      = ({ status := 400, body := .text "Switch model is disabled" }, [])) ∧
    (∀ e : PyExc, outcome = .error e → newName ≠ some currentName →
      (switch_model false currentName newName outcome).1.status = 500 ∧
      (switch_model false currentName newName outcome).1.body
        = .text ("Switch model failed: " ++ e.typeName ++ " - " ++ e.msg)) ∧
    (outcome = .ok () →
      (switch_model false currentName newName outcome).1.status = 200) := by
  refine ⟨rfl, ?_, ?_⟩
  · rintro e rfl hne
    simp only [switch_model]
    rw [if_neg Bool.false_ne_true, if_neg hne]
    exact ⟨rfl, rfl⟩
  · rintro rfl
    simp only [switch_model]
    rw [if_neg Bool.false_ne_true]
    by_cases h : newName = some currentName
    · rw [if_pos h]
    · rw [if_neg h]

theorem switch_model_endpoint_spec_witness :
    (switch_model false "lama" (some "sd15") (.error ⟨"ValueError", "boom"⟩)).1.body
      = .text ("Switch model failed: " ++ "ValueError" ++ " - " ++ "boom") :=
  ((switch_model_endpoint_spec "lama" (some "sd15")
      (.error ⟨"ValueError", "boom"⟩)).2.1 ⟨"ValueError", "boom"⟩ rfl (by decide)).2

/-- C9 counterexample: when model switching was disabled at startup, a
`POST /model` request naming the currently active backend is answered with
HTTP 400 `"Switch model is disabled"`, not HTTP 200 `"Same model"`, refuting
the claim as stated for every such request. -/
theorem switch_model_same_name_disabled_cex :
    (switch_model true "lama" (some "lama") (.ok ())).1.status = 400 ∧
    (switch_model true "lama" (some "lama") (.ok ())).1.status ≠ 200 ∧
    (switch_model true "lama" (some "lama") (.ok ())).1.body
      ≠ .text "Same model" := by decide

/-- C9 amended: when model switching is enabled, a `POST /model` request
whose requested name equals the currently active backend's name is answered
with HTTP 200 `"Same model"` and the registry's `switch` operation is never
invoked (the event list is empty), whatever a switch would have done. -/
theorem switch_model_same_name_noop (currentName : String)
    (outcome : Except PyExc Unit) :
    switch_model false currentName (some currentName) outcome
      = ({ status := 200, body := .text "Same model" }, []) := by
  simp only [switch_model]
  rw [if_neg Bool.false_ne_true, if_pos trivial]

/-- C10: with an output directory configured and a successful write,
`/save_image` persists, at the configured directory joined with the
caller-supplied filename with its suffix replaced by `.png`, an image encoded
as PNG after conversion to RGBA — for every request, whatever format its
uploaded bytes would sniff as. -/
theorem save_image_always_png (req : SaveRequest) (dir : String)
    (quality : Nat) :
    (save_image req (some dir) quality true).1.status = 200 ∧
    (save_image req (some dir) quality true).2
      = [Event.saveFile (withSuffixPng (dir ++ "/" ++ req.filename))
          (.imagePil (Buf.convertRGBA (compose req.image req.alpha))
            "png" quality req.infos)] := by
  rw [save_image_some_eq req dir quality]
  exact ⟨rfl, rfl⟩

theorem withSuffixPng_replaces : withSuffixPng "outdir/photo.jpg" = "outdir/photo.png" := by
  decide

theorem withSuffixPng_appends : withSuffixPng "outdir/photo" = "outdir/photo.png" := by
  decide

end LamaCleaner
